import Mathlib

/-!
Verification of the farm data-processing pipeline
(data_ingestion.py, field_data_processor.py, weather_data_processor.py,
main.py, config.py) against its specification.

Dataframes are modelled column-oriented: a list of (label, values) pairs.
External library calls (SQL execution, regex search, float parsing, CSV
fetch, pandas merge) are abstracted as function parameters; the pipeline's
own control flow and transformations are embedded faithfully.
-/

namespace FarmPipeline

/-! ## data_ingestion.query_data

`query_data` runs the SQL query (modelled as an `Except` result of the
external engine call), raises `ValueError` ("The query returned an empty
DataFrame.") when the materialized frame is empty, re-raises any execution
error, and otherwise returns the frame. A query result frame is modelled
as its list of rows. -/

def emptyResultMsg : String := "The query returned an empty DataFrame."

def query_data {α : Type} (run : Except String (List α)) : Except String (List α) :=
  match run with
  | .error e => .error e
  | .ok rows => if rows.isEmpty then .error emptyResultMsg else .ok rows

/-! ## main.print_ttest_results

`print_ttest_results` prints three lines: a header, the p-value line, and
a verdict line chosen by `p_val < alpha`. The float formatting `:.5f` is
abstracted as a parameter `fmtP`. -/

def rejectLine : String := "  Null hypothesis rejected: There is a significant difference."

def noRejectLine : String := "  Null hypothesis not rejected: There is no significant difference."

def print_ttest_results (fmtP : ℚ → String) (station_id : ℤ) (measurement : String)
    (p_val alpha : ℚ) : List String :=
  [s!"T-test results for station {station_id} and measurement '{measurement}':",
   "  p-value: " ++ fmtP p_val,
   if p_val < alpha then rejectLine else noRejectLine]

/-! ## field_data_processor.apply_corrections — value correction

The categorical correction applies `values_to_rename.get(crop, crop)` to
each value of the target column: a Python `dict.get` with the value itself
as default. The configured mapping is `values_to_rename` from config.py. -/

def correctValue (m : List (String × String)) (v : String) : String :=
  match List.lookup v m with
  | some c => c
  | none => v

def values_to_rename : List (String × String) :=
  [("cassaval", "cassava"), ("wheatn", "wheat"), ("teaa", "tea")]

/-! ## field_data_processor.rename_columns

A dataframe is a list of (label, column-values) pairs. `rename_columns`
takes the first key and first value of `columns_to_rename` as the swapped
pair, picks a placeholder label by appending underscores to
`"__temp_name_for_swap__"` until it collides with no existing column
label (the `while` loop, modelled with sufficient fuel), renames the
first column to the placeholder and the second to the first in one pass,
then renames the placeholder to the second. `pandas.DataFrame.rename`
relabels each column through the dictionary, leaving data and order
untouched. -/

def dfColumns {α : Type} (df : List (String × List α)) : List String :=
  df.map Prod.fst

def renameLabel (d : List (String × String)) (l : String) : String :=
  match d.find? (fun p => p.1 == l) with
  | some p => p.2
  | none => l

def renameColumns {α : Type} (d : List (String × String)) (df : List (String × List α)) :
    List (String × List α) :=
  df.map fun c => (renameLabel d c.1, c.2)

def freshTempAux (fuel : ℕ) (t : String) (cols : List String) : String :=
  match fuel with
  | 0 => t
  | fuel + 1 => if t ∈ cols then freshTempAux fuel (t ++ "_") cols else t

def tempNameSeed : String := "__temp_name_for_swap__"

def rename_columns {α : Type} (column1 column2 : String) (df : List (String × List α)) :
    List (String × List α) :=
  let temp_name := freshTempAux ((dfColumns df).length + 1) tempNameSeed (dfColumns df)
  renameColumns [(temp_name, column2)]
    (renameColumns [(column1, temp_name), (column2, column1)] df)

/-- The label permutation a true swap of A and B performs. -/
def swapLabel (A B l : String) : String :=
  if l = A then B else if l = B then A else l

/-- Concrete survey table used by witnesses: the configured swapped pair
plus an untouched column. -/
def dfC1 : List (String × List ℤ) :=
  [("Annual_yield", [1, 2]), ("Crop_type", [3, 4]), ("Elevation", [5, 6])]

/-! ## weather_data_processor.extract_measurement

The method walks the configured `(key, pattern)` rules in order (a Python
dict preserves insertion order; modelled as a list). `re.search` and
`float` are external library calls, abstracted as `search` (returning the
captured groups of the first match, or `none`) and `toFloat` (returning
`none` when Python `float()` would raise `ValueError`). On the first rule
whose pattern matches, the code evaluates
`float(next(x for x in match.groups() if x is not None))`: `next` raises
`StopIteration` when every captured group is null, and `float` raises on
an unparsable group; otherwise the pair `(key, value)` is returned. When
no rule matches it returns `(None, None)`. Exceptions are modelled with
`Except`. -/

def firstSomeGroup : List (Option String) → Option String
  | [] => none
  | some x :: _ => some x
  | none :: rest => firstSomeGroup rest

def extract_measurement (search : String → String → Option (List (Option String)))
    (toFloat : String → Option ℚ)
    (patterns : List (String × String)) (message : String) :
    Except String (Option String × Option ℚ) :=
  match patterns with
  | [] => .ok (none, none)
  | (key, pat) :: rest =>
    match search pat message with
    | some groups =>
      match firstSomeGroup groups with
      | some s =>
        match toFloat s with
        | some v => .ok (some key, some v)
        | none => .error "ValueError: could not convert string to float"
      | none => .error "StopIteration"
    | none => extract_measurement search toFloat rest message

/-- A regex-search stub whose single match captures only null groups. -/
def allNullSearch : String → String → Option (List (Option String)) :=
  fun _ _ => some [none]

/-- A float-parsing stub rejecting every string. -/
def rejectFloat : String → Option ℚ :=
  fun _ => none

/-- A regex-search stub for the witnesses: the pattern "temp" matches the
message "Temperature: 19.5 C" with one captured group "19.5". -/
def tempSearch : String → String → Option (List (Option String)) :=
  fun pat msg =>
    if pat = "temp" ∧ msg = "Temperature: 19.5 C" then some [some "19.5"] else none

/-- A float-parsing stub for the witnesses: parses exactly "19.5". -/
def tempFloat : String → Option ℚ :=
  fun s => if s = "19.5" then some (39 / 2) else none

/-! ## weather_data_processor.calculate_means

`process_messages` stores the `(Measurement, Value)` pair returned by
`extract_measurement` on every row, so a weather row is modelled as a
station identifier together with an optional parsed (kind, value) pair
(both fields null when no pattern matched). `calculate_means` groups by
(station identifier, measurement kind) — pandas `groupby` drops rows
whose key is null — takes the arithmetic mean of `Value` per group, and
`unstack` pivots kinds into columns: the pivoted cell for a (station,
kind) pair holds the group mean when the group exists and is null
otherwise. When `weather_df` was never loaded the method returns the
"not available" result `None`. -/

def contributes (sk : String × String) (r : String × Option (String × ℚ)) : Bool :=
  match r.2 with
  | some kv => r.1 == sk.1 && kv.1 == sk.2
  | none => false

def groupVals (rows : List (String × Option (String × ℚ))) (sk : String × String) : List ℚ :=
  (rows.filter (contributes sk)).filterMap fun r => r.2.map Prod.snd

def groupKeys (rows : List (String × Option (String × ℚ))) : List (String × String) :=
  (rows.filterMap fun r => r.2.map fun kv => (r.1, kv.1)).dedup

def meansOf (rows : List (String × Option (String × ℚ))) : List ((String × String) × ℚ) :=
  (groupKeys rows).map fun sk => (sk, (groupVals rows sk).sum / (groupVals rows sk).length)

def calculate_means (weather : Option (List (String × Option (String × ℚ)))) :
    Option (List ((String × String) × ℚ)) :=
  weather.map meansOf

def unstackCell (means : List ((String × String) × ℚ)) (station kind : String) : Option ℚ :=
  means.lookup (station, kind)

/-- Concrete parsed weather table used by witnesses: three Temperature
readings at station S1 and one unparsed message at station S2. -/
def rows4 : List (String × Option (String × ℚ)) :=
  [("S1", some ("Temperature", 10)), ("S1", some ("Temperature", 20)),
   ("S1", some ("Temperature", 30)), ("S2", none)]

/-! ## field_data_processor.apply_corrections — frame effect

A heterogeneous dataframe cell is numeric or string.
`apply_corrections(column_name, abs_column)` executes
`df[abs_column] = df[abs_column].abs()` then
`df[column_name] = df[column_name].apply(lambda crop: values_to_rename.get(crop, crop))`.
Reading a missing column raises `KeyError` (modelled as `none`); pandas
`Series.abs` raises `TypeError` on a non-numeric cell (`absSeries` returns
`none`); assignment to an existing label replaces that column's values in
place; `dict.get(v, v)` on a non-string cell returns it unchanged. -/

inductive Cell where
  | num (z : ℤ)
  | str (s : String)
deriving DecidableEq

def isNumCell : Cell → Bool
  | .num _ => true
  | .str _ => false

def absCell : Cell → Cell
  | .num z => .num |z|
  | .str s => .str s

def absSeries (vs : List Cell) : Option (List Cell) :=
  if vs.all isNumCell then some (vs.map absCell) else none

def correctCell (m : List (String × String)) : Cell → Cell
  | .num z => .num z
  | .str s => .str (correctValue m s)

def getColumn (df : List (String × List Cell)) (l : String) : Option (List Cell) :=
  (df.find? fun c => c.1 == l).map Prod.snd

def setExistingColumn (df : List (String × List Cell)) (l : String) (vs : List Cell) :
    List (String × List Cell) :=
  df.map fun c => if c.1 == l then (c.1, vs) else c

def apply_corrections (m : List (String × String)) (column_name abs_column : String)
    (df : List (String × List Cell)) : Option (List (String × List Cell)) :=
  match getColumn df abs_column with
  | none => none
  | some avs =>
    match absSeries avs with
    | none => none
    | some avs2 =>
      let df1 := setExistingColumn df abs_column avs2
      match getColumn df1 column_name with
      | none => none
      | some cvs => some (setExistingColumn df1 column_name (cvs.map (correctCell m)))

/-- Concrete mixed dataframe used by the C10 witness. -/
def dfC10 : List (String × List Cell) :=
  [("Field_ID", [.num 1, .num 2]),
   ("Elevation", [.num (-5), .num 3]),
   ("Crop_type", [.str "wheatn", .str "maize"])]

/-- The C10 witness dataframe after `apply_corrections`. -/
def dfC10' : List (String × List Cell) :=
  [("Field_ID", [.num 1, .num 2]),
   ("Elevation", [.num 5, .num 3]),
   ("Crop_type", [.str "wheat", .str "maize"])]

/-! ## field_data_processor.ingest_sql_data (C3)

The method runs `self.engine = create_db_engine(self.db_path)` and then
`self.df = config_params.query_data(self.engine, self.sql_query)`.
`config_params` is the configuration dictionary imported from config.py,
and a Python `dict` exposes no `query_data` attribute, so the attribute
lookup raises `AttributeError` before any query runs. The external
`create_db_engine` call is the `connect` parameter; the adapter function
the module imported (and the spec intends) is the `query` parameter; the
attribute lookup on the dict is modelled by membership in the fixed list
of `dict` attribute names. -/

def dictAttributes : List String :=
  ["clear", "copy", "fromkeys", "get", "items", "keys", "pop", "popitem",
   "setdefault", "update", "values"]

def ingest_sql_data (connect : Except String Unit)
    (query : Unit → Except String (List (List Cell))) : Except String (List (List Cell)) :=
  match connect with
  | .error e => .error e
  | .ok engine =>
    if "query_data" ∈ dictAttributes then query engine
    else .error "AttributeError: dict object has no attribute query_data"

/-! ## field_data_processor.weather_station_mapping (C6)

The method evaluates
`self.df.merge(read_from_web_CSV(self.weather_map_data), on='Field_ID', how='outer')`.
`__init__` sets the attributes `db_path`, `sql_query`, `columns_to_rename`,
`values_to_rename`, `weather_csv_path`, `weather_mapping_csv` (plus
`logger`, `df`, `engine`) — never `weather_map_data` — so the attribute
lookup raises `AttributeError` before the CSV fetch or the merge happen.
The string-valued attributes set by `__init__` are modelled as a keyed
list; `read_from_web_CSV` and the pandas outer merge are the abstract
`fetch` and `mergeOuter` parameters, reached only if the lookup
succeeded. -/

def fieldProcessorAttributes (db_path sql_query weather_csv_path weather_mapping_csv : String) :
    List (String × String) :=
  [("db_path", db_path), ("sql_query", sql_query),
   ("weather_csv_path", weather_csv_path), ("weather_mapping_csv", weather_mapping_csv)]

def weather_station_mapping (attrs : List (String × String))
    (fetch : String → List (String × List Cell))
    (mergeOuter : List (String × List Cell) → List (String × List Cell) →
      List (String × List Cell))
    (df : List (String × List Cell)) : Except String (List (String × List Cell)) :=
  match attrs.lookup "weather_map_data" with
  | some url => .ok (mergeOuter df (fetch url))
  | none => .error "AttributeError: FieldDataProcessor object has no attribute weather_map_data"

/-! ### Theorems -/

/-! ### Freshness of the placeholder label -/

lemma length_filter_le_of_imp {α : Type} (l : List α) (p q : α → Bool)
    (h : ∀ x ∈ l, p x = true → q x = true) :
    (l.filter p).length ≤ (l.filter q).length := by
  induction l with
  | nil => simp
  | cons a as ih =>
    have ih' := ih fun x hx => h x (List.mem_cons_of_mem _ hx)
    by_cases hp : p a = true
    · have hq := h a (List.mem_cons_self a as) hp
      simp only [List.filter_cons, hp, hq, if_true, List.length_cons]
      omega
    · have hp' : p a = false := by simpa using hp
      by_cases hq : q a = true
      · simp only [List.filter_cons, hp', hq, Bool.false_eq_true, if_false, if_true,
          List.length_cons]
        omega
      · have hq' : q a = false := by simpa using hq
        simp only [List.filter_cons, hp', hq', Bool.false_eq_true, if_false]
        exact ih'

lemma length_filter_ge_succ_lt (cols : List String) (t : String) (ht : t ∈ cols) :
    (cols.filter fun c => decide (t.length + 1 ≤ c.length)).length <
      (cols.filter fun c => decide (t.length ≤ c.length)).length := by
  induction cols with
  | nil => cases ht
  | cons a as ih =>
    have himp : ∀ x ∈ as, decide (t.length + 1 ≤ x.length) = true →
        decide (t.length ≤ x.length) = true := by
      intro x _ hx
      simp only [decide_eq_true_eq] at hx ⊢
      omega
    rcases List.mem_cons.mp ht with h | h
    · subst h
      have hp : decide (t.length + 1 ≤ t.length) = false := by simp
      have hq : decide (t.length ≤ t.length) = true := by simp
      simp only [List.filter_cons, hp, hq, Bool.false_eq_true, if_false, if_true,
        List.length_cons]
      exact Nat.lt_succ_of_le (length_filter_le_of_imp as _ _ himp)
    · have ih' := ih h
      by_cases hp : decide (t.length + 1 ≤ a.length) = true
      · have hq : decide (t.length ≤ a.length) = true := by
          simp only [decide_eq_true_eq] at hp ⊢
          omega
        simp only [List.filter_cons, hp, hq, if_true, List.length_cons]
        omega
      · have hp' : decide (t.length + 1 ≤ a.length) = false := by simpa using hp
        by_cases hq : decide (t.length ≤ a.length) = true
        · simp only [List.filter_cons, hp', hq, Bool.false_eq_true, if_false, if_true,
            List.length_cons]
          omega
        · have hq' : decide (t.length ≤ a.length) = false := by simpa using hq
          simp only [List.filter_cons, hp', hq', Bool.false_eq_true, if_false]
          exact ih'

lemma freshTempAux_not_mem : ∀ (fuel : ℕ) (t : String) (cols : List String),
    (cols.filter fun c => decide (t.length ≤ c.length)).length < fuel →
    freshTempAux fuel t cols ∉ cols := by
  intro fuel
  induction fuel with
  | zero => intro t cols h; omega
  | succ fuel ih =>
    intro t cols h
    by_cases ht : t ∈ cols
    · have hlen : (t ++ "_").length = t.length + 1 := by
        rw [String.length_append]
        rfl
      have hrec : (cols.filter fun c => decide ((t ++ "_").length ≤ c.length)).length < fuel := by
        have := length_filter_ge_succ_lt cols t ht
        simp only [hlen]
        omega
      simpa [freshTempAux, ht] using ih (t ++ "_") cols hrec
    · simp [freshTempAux, ht]

lemma freshTemp_not_mem (t : String) (cols : List String) :
    freshTempAux (cols.length + 1) t cols ∉ cols :=
  freshTempAux_not_mem (cols.length + 1) t cols
    (Nat.lt_succ_of_le (List.length_filter_le _ cols))

/-! ### The two renames compose to the swap permutation -/

lemma swapLabel_self_right (A B : String) : swapLabel A B B = A := by
  unfold swapLabel
  split_ifs <;> simp_all

lemma swapLabel_self_left (A B : String) : swapLabel A B A = B := by
  simp [swapLabel]

lemma swapLabel_involutive (A B l : String) : swapLabel A B (swapLabel A B l) = l := by
  unfold swapLabel
  split_ifs <;> simp_all

lemma renameLabel_single (a ra l : String) :
    renameLabel [(a, ra)] l = if l = a then ra else l := by
  by_cases h : l = a
  · subst h
    simp [renameLabel, List.find?]
  · simp [renameLabel, List.find?, beq_eq_false_iff_ne.mpr fun hx => h hx.symm, h]

lemma renameLabel_pair (a ra b rb l : String) :
    renameLabel [(a, ra), (b, rb)] l = if l = a then ra else if l = b then rb else l := by
  by_cases h1 : l = a
  · subst h1
    simp [renameLabel, List.find?]
  · by_cases h2 : l = b
    · subst h2
      simp [renameLabel, List.find?, beq_eq_false_iff_ne.mpr fun hx => h1 hx.symm, h1]
    · simp [renameLabel, List.find?, beq_eq_false_iff_ne.mpr fun hx => h1 hx.symm,
        beq_eq_false_iff_ne.mpr fun hx => h2 hx.symm, h1, h2]

lemma rename_columns_eq_map_swap {α : Type} (A B : String) (df : List (String × List α))
    (hA : A ∈ dfColumns df) :
    rename_columns A B df = df.map fun c => (swapLabel A B c.1, c.2) := by
  unfold rename_columns renameColumns
  rw [List.map_map]
  apply List.map_congr_left
  intro c hc
  have hcmem : c.1 ∈ dfColumns df := List.mem_map_of_mem Prod.fst hc
  have hTn : freshTempAux ((dfColumns df).length + 1) tempNameSeed (dfColumns df) ∉
      dfColumns df := freshTemp_not_mem tempNameSeed (dfColumns df)
  set T := freshTempAux ((dfColumns df).length + 1) tempNameSeed (dfColumns df) with hT
  have hTc : T ≠ c.1 := fun h => hTn (h ▸ hcmem)
  have hTA : T ≠ A := fun h => hTn (h ▸ hA)
  simp only [Function.comp_apply]
  have key : renameLabel [(T, B)] (renameLabel [(A, T), (B, A)] c.1) = swapLabel A B c.1 := by
    rw [renameLabel_pair, renameLabel_single]
    unfold swapLabel
    split_ifs <;> simp_all
  rw [key]

/-- C7: a query whose execution succeeds but returns zero rows makes
`query_data` raise the empty-result error instead of returning an empty
table; a query returning at least one row is returned unchanged without
error. -/
theorem query_data_empty_result_policy {α : Type} (rows : List α) :
    (rows = [] → query_data (.ok rows) = .error emptyResultMsg) ∧
    (rows ≠ [] → query_data (.ok rows) = .ok rows) := by
  constructor
  · intro h
    subst h
    rfl
  · intro h
    simp [query_data, List.isEmpty_iff, h]

/-- Witness for C7: concrete empty and non-empty query results. -/
theorem query_data_empty_result_policy_witness :
    query_data (.ok ([] : List ℕ)) = .error emptyResultMsg ∧
    query_data (.ok [1]) = .ok [1] :=
  ⟨(query_data_empty_result_policy ([] : List ℕ)).1 rfl,
   (query_data_empty_result_policy [1]).2 (by decide)⟩

/-- C8: the report is a deterministic function of its inputs; the third
printed line is the "reject" verdict exactly when `p_val < alpha` holds
strictly, and the "do not reject" verdict otherwise. -/
theorem print_ttest_results_verdict (fmtP : ℚ → String) (station_id : ℤ)
    (measurement : String) (p_val alpha : ℚ) :
    ((print_ttest_results fmtP station_id measurement p_val alpha).get? 2 =
        some rejectLine ↔ p_val < alpha) ∧
    ((print_ttest_results fmtP station_id measurement p_val alpha).get? 2 =
        some noRejectLine ↔ ¬ p_val < alpha) := by
  have hne : rejectLine ≠ noRejectLine := by decide
  by_cases h : p_val < alpha <;>
    simp [print_ttest_results, h, hne, Ne.symm hne]

/-- Witness for C8: with p-value 1/100 and alpha 5/100 the verdict line is
the rejection line; with p-value 1/10 it is the non-rejection line. -/
theorem print_ttest_results_verdict_witness :
    (print_ttest_results (fun _ => "") 0 "Temperature" (1/100) (5/100)).get? 2 =
        some rejectLine ∧
    (print_ttest_results (fun _ => "") 0 "Temperature" (1/10) (5/100)).get? 2 =
        some noRejectLine :=
  ⟨(print_ttest_results_verdict (fun _ => "") 0 "Temperature" (1/100) (5/100)).1.mpr
      (by norm_num),
   (print_ttest_results_verdict (fun _ => "") 0 "Temperature" (1/10) (5/100)).2.mpr
      (by norm_num)⟩

/-- C5: the categorical value correction is total—every value with a
binding in the mapping goes to its canonical form and every other value is
a fixed point—and, for the configured `values_to_rename` mapping, applying
the correction twice equals applying it once, on values and hence on the
whole target column. -/
theorem apply_corrections_value_total_idempotent :
    (∀ (m : List (String × String)) (v : String),
      (List.lookup v m = none → correctValue m v = v) ∧
      (∀ c, List.lookup v m = some c → correctValue m v = c)) ∧
    (∀ v : String,
      correctValue values_to_rename (correctValue values_to_rename v) =
        correctValue values_to_rename v) ∧
    (∀ col : List String,
      (col.map (correctValue values_to_rename)).map (correctValue values_to_rename) =
        col.map (correctValue values_to_rename)) := by
  have htot : ∀ (m : List (String × String)) (v : String),
      (List.lookup v m = none → correctValue m v = v) ∧
      (∀ c, List.lookup v m = some c → correctValue m v = c) := by
    intro m v
    constructor
    · intro h
      simp [correctValue, h]
    · intro c h
      simp [correctValue, h]
  have hid : ∀ v : String,
      correctValue values_to_rename (correctValue values_to_rename v) =
        correctValue values_to_rename v := by
    intro v
    by_cases h1 : v = "cassaval"
    · subst h1; decide
    · by_cases h2 : v = "wheatn"
      · subst h2; decide
      · by_cases h3 : v = "teaa"
        · subst h3; decide
        · have e1 : (v == "cassaval") = false := beq_eq_false_iff_ne.mpr h1
          have e2 : (v == "wheatn") = false := beq_eq_false_iff_ne.mpr h2
          have e3 : (v == "teaa") = false := beq_eq_false_iff_ne.mpr h3
          have hnone : List.lookup v values_to_rename = none := by
            simp [values_to_rename, List.lookup, e1, e2, e3]
          simp [correctValue, hnone]
  refine ⟨htot, hid, ?_⟩
  intro col
  simp only [List.map_map]
  exact List.map_congr_left fun v _ => hid v

/-- Witness for C5: a mapped value ("wheatn") goes to its canonical form,
an unmapped value ("maize") passes through, and correction is idempotent
at "wheatn". -/
theorem apply_corrections_value_total_idempotent_witness :
    correctValue values_to_rename "wheatn" = "wheat" ∧
    correctValue values_to_rename "maize" = "maize" ∧
    correctValue values_to_rename (correctValue values_to_rename "wheatn") =
      correctValue values_to_rename "wheatn" :=
  ⟨(apply_corrections_value_total_idempotent.1 values_to_rename "wheatn").2 "wheat" (by decide),
   (apply_corrections_value_total_idempotent.1 values_to_rename "maize").1 (by decide),
   apply_corrections_value_total_idempotent.2.1 "wheatn"⟩

/-- C1: for every table containing the two configured column labels, the
column-relabel operation is a true swap: the data previously under the
first label is reachable under the second and vice versa while every
other column and all row data are unchanged (the rename equals the label
swap permutation applied to the labels only), and applying
`rename_columns` twice restores the original labels and per-row data
exactly. -/
theorem rename_columns_true_swap {α : Type} (A B : String) (df : List (String × List α))
    (hA : A ∈ dfColumns df) (hB : B ∈ dfColumns df) :
    rename_columns A B df = (df.map fun c => (swapLabel A B c.1, c.2)) ∧
    rename_columns A B (rename_columns A B df) = df := by
  have h1 := rename_columns_eq_map_swap A B df hA
  refine ⟨h1, ?_⟩
  have hA2 : A ∈ dfColumns (rename_columns A B df) := by
    rw [h1]
    unfold dfColumns
    rw [List.map_map]
    rcases List.mem_map.mp hB with ⟨c, hc, hce⟩
    exact List.mem_map.mpr ⟨c, hc, by simp [Function.comp, hce, swapLabel_self_right]⟩
  rw [rename_columns_eq_map_swap A B _ hA2, h1, List.map_map]
  conv_rhs => rw [← List.map_id df]
  apply List.map_congr_left
  intro c _
  simp [Function.comp, swapLabel_involutive]

/-- Witness for C1: the configured pair Annual_yield/Crop_type on a
concrete three-column table. -/
theorem rename_columns_true_swap_witness :
    ("Annual_yield" ∈ dfColumns dfC1 ∧ "Crop_type" ∈ dfColumns dfC1) ∧
    (rename_columns "Annual_yield" "Crop_type" dfC1 =
      (dfC1.map fun c => (swapLabel "Annual_yield" "Crop_type" c.1, c.2)) ∧
     rename_columns "Annual_yield" "Crop_type"
        (rename_columns "Annual_yield" "Crop_type" dfC1) = dfC1) :=
  ⟨⟨by decide, by decide⟩,
   rename_columns_true_swap "Annual_yield" "Crop_type" dfC1 (by decide) (by decide)⟩

/-- C2: `extract_measurement` tries the configured rules in order; when no
pattern matches the message, it returns the null pair `(None, None)`
without error, and the first matching pattern determines the returned
kind, with the returned value equal to the first non-null captured group
of that match coerced to a float. -/
theorem extract_measurement_first_match (search : String → String → Option (List (Option String)))
    (toFloat : String → Option ℚ) (message : String) :
    (∀ patterns : List (String × String),
      (∀ kp ∈ patterns, search kp.2 message = none) →
      extract_measurement search toFloat patterns message = .ok (none, none)) ∧
    (∀ (pre : List (String × String)) (key pat : String) (post : List (String × String))
        (groups : List (Option String)) (s : String) (v : ℚ),
      (∀ kp ∈ pre, search kp.2 message = none) →
      search pat message = some groups →
      firstSomeGroup groups = some s →
      toFloat s = some v →
      extract_measurement search toFloat (pre ++ (key, pat) :: post) message =
        .ok (some key, some v)) := by
  constructor
  · intro patterns
    induction patterns with
    | nil => intro _; rfl
    | cons kp rest ih =>
      intro h
      obtain ⟨key, pat⟩ := kp
      have hkp := h (key, pat) (List.mem_cons_self (key, pat) rest)
      simp only [extract_measurement, hkp]
      exact ih fun x hx => h x (List.mem_cons_of_mem (key, pat) hx)
  · intro pre key pat post groups s v
    induction pre with
    | nil =>
      intro _ hmatch hgroup hfloat
      simp only [List.nil_append, extract_measurement, hmatch, hgroup, hfloat]
    | cons kp rest ih =>
      intro hpre hmatch hgroup hfloat
      obtain ⟨k0, p0⟩ := kp
      have hkp := hpre (k0, p0) (List.mem_cons_self (k0, p0) rest)
      simp only [List.cons_append, extract_measurement, hkp]
      exact ih (fun x hx => hpre x (List.mem_cons_of_mem (k0, p0) hx)) hmatch hgroup hfloat

/-- Witness for C2: with the configured rule list containing only
("Temperature", "temp"), the message "Temperature: 19.5 C" yields
("Temperature", 19.5), and a non-matching message yields the null pair. -/
theorem extract_measurement_first_match_witness :
    extract_measurement tempSearch tempFloat [("Temperature", "temp")] "Temperature: 19.5 C" =
      .ok (some "Temperature", some (39 / 2)) ∧
    extract_measurement tempSearch tempFloat [("Temperature", "temp")] "Humidity: 40" =
      .ok (none, none) :=
  ⟨(extract_measurement_first_match tempSearch tempFloat "Temperature: 19.5 C").2
      [] "Temperature" "temp" [] [some "19.5"] "19.5" (39 / 2)
      (fun kp hkp => absurd hkp (List.not_mem_nil kp)) rfl rfl rfl,
   (extract_measurement_first_match tempSearch tempFloat "Humidity: 40").1
      [("Temperature", "temp")]
      (fun kp hkp => by
        rcases List.mem_singleton.mp hkp with rfl
        rfl)⟩

/-- C9: `extract_measurement` is total only under an unstated
precondition: when a pattern matches but every captured group of the
match is null, the call raises (`StopIteration`) instead of returning the
null pair, and likewise raises (`ValueError`) when the first non-null
captured group is not parseable as a float; under the precondition that
every matching pattern captures a non-null group parseable as a float,
the error branch is unreachable and the call always returns a pair. -/
theorem extract_measurement_partiality :
    extract_measurement allNullSearch tempFloat [("Temperature", "temp")] "msg" =
      .error "StopIteration" ∧
    extract_measurement tempSearch rejectFloat [("Temperature", "temp")] "Temperature: 19.5 C" =
      .error "ValueError: could not convert string to float" ∧
    (∀ (search : String → String → Option (List (Option String)))
        (toFloat : String → Option ℚ) (patterns : List (String × String)) (message : String),
      (∀ kp ∈ patterns, ∀ groups, search kp.2 message = some groups →
        ∃ s v, firstSomeGroup groups = some s ∧ toFloat s = some v) →
      ∃ out, extract_measurement search toFloat patterns message = .ok out) := by
  refine ⟨rfl, rfl, ?_⟩
  intro search toFloat patterns message
  induction patterns with
  | nil => exact fun _ => ⟨(none, none), rfl⟩
  | cons kp rest ih =>
    intro h
    obtain ⟨key, pat⟩ := kp
    cases hm : search pat message with
    | none =>
      rcases ih (fun x hx => h x (List.mem_cons_of_mem (key, pat) hx)) with ⟨out, hout⟩
      exact ⟨out, by simp only [extract_measurement, hm]; exact hout⟩
    | some groups =>
      rcases h (key, pat) (List.mem_cons_self (key, pat) rest) groups hm with ⟨s, v, hs, hv⟩
      exact ⟨(some key, some v), by simp only [extract_measurement, hm, hs, hv]⟩

/-- Witness for C9: the precondition part applied to the witness search
and parser, whose only match captures the parseable group "19.5". -/
theorem extract_measurement_partiality_witness :
    ∃ out, extract_measurement tempSearch tempFloat [("Temperature", "temp")]
      "Temperature: 19.5 C" = .ok out :=
  extract_measurement_partiality.2.2 tempSearch tempFloat [("Temperature", "temp")]
    "Temperature: 19.5 C"
    (fun kp hkp groups hg => by
      rcases List.mem_singleton.mp hkp with rfl
      simp only [tempSearch] at hg
      rw [if_pos (And.intro trivial trivial)] at hg
      injection hg with h
      subst h
      exact ⟨"19.5", 39 / 2, rfl, rfl⟩)

lemma lookup_map_self {β : Type} (l : List (String × String)) (f : String × String → β)
    (k : String × String) :
    (l.map fun x => (x, f x)).lookup k = if k ∈ l then some (f k) else none := by
  induction l with
  | nil => simp
  | cons a as ih =>
    by_cases h : k = a
    · subst h
      simp [List.lookup]
    · have hka : (k == a) = false := beq_eq_false_iff_ne.mpr h
      simp [List.lookup, hka, ih, List.mem_cons, h]

lemma mem_groupKeys (rows : List (String × Option (String × ℚ))) (sk : String × String) :
    sk ∈ groupKeys rows ↔ ∃ r ∈ rows, contributes sk r = true := by
  unfold groupKeys
  rw [List.mem_dedup, List.mem_filterMap]
  obtain ⟨s, k⟩ := sk
  constructor
  · rintro ⟨r, hr, hmap⟩
    refine ⟨r, hr, ?_⟩
    cases h2 : r.2 with
    | none => rw [h2] at hmap; cases hmap
    | some kv =>
      rw [h2] at hmap
      simp only [Option.map_some'] at hmap
      injection hmap with hpair
      unfold contributes
      rw [h2]
      rw [show s = r.1 from (congrArg Prod.fst hpair).symm,
        show k = kv.1 from (congrArg Prod.snd hpair).symm]
      simp
  · rintro ⟨r, hr, hc⟩
    refine ⟨r, hr, ?_⟩
    unfold contributes at hc
    cases h2 : r.2 with
    | none => rw [h2] at hc; cases hc
    | some kv =>
      rw [h2] at hc
      simp only [Bool.and_eq_true, beq_iff_eq] at hc
      simp only [Option.map_some']
      exact congrArg some (Prod.ext hc.1 hc.2)

/-- C4: `calculate_means` on a loaded table computes, for every
(station, kind) pair with at least one contributing parsed row, the
arithmetic mean of the group's numeric values, pivoted so each kind is a
column (`unstackCell`); a (station, kind) group with no contributing
rows does not appear (its pivoted cell is null). -/
theorem calculate_means_group_mean (rows : List (String × Option (String × ℚ)))
    (station kind : String) :
    calculate_means (some rows) = some (meansOf rows) ∧
    ((∃ r ∈ rows, contributes (station, kind) r = true) →
      unstackCell (meansOf rows) station kind =
        some ((groupVals rows (station, kind)).sum /
          (groupVals rows (station, kind)).length)) ∧
    ((¬ ∃ r ∈ rows, contributes (station, kind) r = true) →
      unstackCell (meansOf rows) station kind = none) := by
  have hcell : unstackCell (meansOf rows) station kind =
      if (station, kind) ∈ groupKeys rows then
        some ((groupVals rows (station, kind)).sum /
          (groupVals rows (station, kind)).length)
      else none := by
    unfold unstackCell meansOf
    exact lookup_map_self (groupKeys rows) _ (station, kind)
  refine ⟨rfl, ?_, ?_⟩
  · intro h
    rw [hcell, if_pos ((mem_groupKeys rows (station, kind)).mpr h)]
  · intro h
    rw [hcell, if_neg fun hmem => h ((mem_groupKeys rows (station, kind)).mp hmem)]

/-- Witness for C4: station S1 / kind Temperature with values
[10, 20, 30] yields the pivoted cell 20, and the empty group
(S2, Rainfall) has a null cell. -/
theorem calculate_means_group_mean_witness :
    unstackCell (meansOf rows4) "S1" "Temperature" =
      some ((groupVals rows4 ("S1", "Temperature")).sum /
        (groupVals rows4 ("S1", "Temperature")).length) ∧
    unstackCell (meansOf rows4) "S2" "Rainfall" = none ∧
    (groupVals rows4 ("S1", "Temperature")).sum /
      ((groupVals rows4 ("S1", "Temperature")).length : ℚ) = 20 := by
  refine ⟨(calculate_means_group_mean rows4 "S1" "Temperature").2.1
      ⟨("S1", some ("Temperature", 10)), List.mem_cons_self _ _, rfl⟩,
    (calculate_means_group_mean rows4 "S2" "Rainfall").2.2 ?_, ?_⟩
  · rintro ⟨r, hr, hc⟩
    fin_cases hr <;> simp [contributes] at hc
  · have hgv : groupVals rows4 ("S1", "Temperature") = [10, 20, 30] := rfl
    rw [hgv]
    norm_num

/-! ### Frame lemmas for apply_corrections -/

lemma dfColumns_setExistingColumn (df : List (String × List Cell)) (l : String)
    (vs : List Cell) :
    dfColumns (setExistingColumn df l vs) = dfColumns df := by
  unfold dfColumns setExistingColumn
  rw [List.map_map]
  apply List.map_congr_left
  intro c _
  by_cases h : c.1 = l <;> simp [h]

lemma mem_setExistingColumn (df : List (String × List Cell)) (l : String) (vs : List Cell)
    (c : String × List Cell) (hc : c ∈ setExistingColumn df l vs) : c ∈ df ∨ c.2 = vs := by
  unfold setExistingColumn at hc
  rcases List.mem_map.mp hc with ⟨a, ha, hae⟩
  by_cases h : (a.1 == l) = true
  · rw [if_pos h] at hae
    right
    rw [← hae]
  · rw [if_neg h] at hae
    left
    rw [← hae]
    exact ha

lemma getColumn_setExistingColumn_ne (df : List (String × List Cell)) (l : String)
    (vs : List Cell) (l' : String) (h : l' ≠ l) :
    getColumn (setExistingColumn df l vs) l' = getColumn df l' := by
  induction df with
  | nil => rfl
  | cons a as ih =>
    unfold getColumn setExistingColumn at ih ⊢
    by_cases ha : a.1 = l
    · have hal : (a.1 == l) = true := beq_iff_eq.mpr ha
      have hal' : (a.1 == l') = false := by
        refine beq_eq_false_iff_ne.mpr ?_
        rw [ha]
        exact fun hx => h hx.symm
      simp only [List.map_cons, List.find?, hal, if_true, hal']
      exact ih
    · have hal : (a.1 == l) = false := beq_eq_false_iff_ne.mpr ha
      by_cases ha' : (a.1 == l') = true
      · simp only [List.map_cons, List.find?, hal, Bool.false_eq_true, if_false, ha']
      · have hal' : (a.1 == l') = false := by simpa using ha'
        simp only [List.map_cons, List.find?, hal, Bool.false_eq_true, if_false, hal']
        exact ih

lemma length_of_getColumn (df : List (String × List Cell)) (l : String) (vs : List Cell)
    (nrows : ℕ) (hrect : ∀ c ∈ df, c.2.length = nrows) (h : getColumn df l = some vs) :
    vs.length = nrows := by
  unfold getColumn at h
  cases hf : df.find? (fun c => c.1 == l) with
  | none => rw [hf] at h; cases h
  | some c =>
    rw [hf] at h
    simp only [Option.map_some'] at h
    injection h with h2
    rw [← h2]
    exact hrect c (List.mem_of_find?_eq_some hf)

lemma rect_setExistingColumn (df : List (String × List Cell)) (l : String) (vs : List Cell)
    (nrows : ℕ) (hrect : ∀ c ∈ df, c.2.length = nrows) (hvs : vs.length = nrows) :
    ∀ c ∈ setExistingColumn df l vs, c.2.length = nrows := by
  intro c hc
  rcases mem_setExistingColumn df l vs c hc with h | h
  · exact hrect c h
  · rw [h]
    exact hvs

/-- C10: `apply_corrections` modifies only the two named columns: for
every rectangular input dataframe on which the operation completes, the
column labels, each column's row count, and the contents of every column
other than the absolute-value column and the categorical target column
are unchanged. -/
theorem apply_corrections_frame_effect (m : List (String × String))
    (column_name abs_column : String) (df : List (String × List Cell)) (nrows : ℕ)
    (df' : List (String × List Cell))
    (hrect : ∀ c ∈ df, c.2.length = nrows)
    (happ : apply_corrections m column_name abs_column df = some df') :
    dfColumns df' = dfColumns df ∧
    (∀ c ∈ df', c.2.length = nrows) ∧
    (∀ l, l ≠ abs_column → l ≠ column_name → getColumn df' l = getColumn df l) := by
  unfold apply_corrections at happ
  cases hg1 : getColumn df abs_column with
  | none =>
    simp only [hg1] at happ
    exact Option.noConfusion happ
  | some avs =>
    simp only [hg1] at happ
    cases ha : absSeries avs with
    | none =>
      simp only [ha] at happ
      exact Option.noConfusion happ
    | some avs2 =>
      simp only [ha] at happ
      cases hg2 : getColumn (setExistingColumn df abs_column avs2) column_name with
      | none =>
        simp only [hg2] at happ
        exact Option.noConfusion happ
      | some cvs =>
        simp only [hg2, Option.some.injEq] at happ
        have hdf : setExistingColumn (setExistingColumn df abs_column avs2) column_name
            (List.map (correctCell m) cvs) = df' := happ
        subst hdf
        have havs : avs.length = nrows := length_of_getColumn df abs_column avs nrows hrect hg1
        have havs2 : avs2.length = nrows := by
          unfold absSeries at ha
          by_cases hall : avs.all isNumCell = true
          · rw [if_pos hall] at ha
            injection ha with ha2
            rw [← ha2, List.length_map]
            exact havs
          · rw [if_neg hall] at ha
            exact Option.noConfusion ha
        have hrect1 : ∀ c ∈ setExistingColumn df abs_column avs2, c.2.length = nrows :=
          rect_setExistingColumn df abs_column avs2 nrows hrect havs2
        have hcvs : cvs.length = nrows :=
          length_of_getColumn _ column_name cvs nrows hrect1 hg2
        refine ⟨?_, ?_, ?_⟩
        · rw [dfColumns_setExistingColumn, dfColumns_setExistingColumn]
        · refine rect_setExistingColumn _ column_name _ nrows hrect1 ?_
          rw [List.length_map]
          exact hcvs
        · intro l hl1 hl2
          rw [getColumn_setExistingColumn_ne _ column_name _ l hl2,
            getColumn_setExistingColumn_ne _ abs_column _ l hl1]

/-- Witness for C10: the default column pair on a concrete three-column
table; the Field_ID column, the label list, and the row count survive. -/
theorem apply_corrections_frame_effect_witness :
    (∀ c ∈ dfC10, c.2.length = 2) ∧
    apply_corrections values_to_rename "Crop_type" "Elevation" dfC10 = some dfC10' ∧
    (dfColumns dfC10' = dfColumns dfC10 ∧
     (∀ c ∈ dfC10', c.2.length = 2) ∧
     (∀ l, l ≠ "Elevation" → l ≠ "Crop_type" → getColumn dfC10' l = getColumn dfC10 l)) :=
  ⟨by decide, by decide,
   apply_corrections_frame_effect values_to_rename "Crop_type" "Elevation" dfC10 2 dfC10'
     (by decide) (by decide)⟩

/-- C3 (code-bug evidence): `ingest_sql_data` never stores a query result.
When the connect step succeeds it raises `AttributeError`, because the
code calls `query_data` as an attribute of the `config_params` dict
rather than the imported adapter function; when the connect step fails
that failure propagates. Either way no dataframe is ever assigned. -/
theorem ingest_sql_data_attribute_error (query : Unit → Except String (List (List Cell)))
    (e : String) :
    ingest_sql_data (.ok ()) query =
      .error "AttributeError: dict object has no attribute query_data" ∧
    ingest_sql_data (.error e) query = .error e := by
  constructor
  · rfl
  · rfl

/-- C6 (code-bug evidence): `weather_station_mapping` raises
`AttributeError` on every instance, whatever the configured paths, the
fetched mapping table, or the survey dataframe: the attribute
`weather_map_data` it reads is never set by `__init__`, so the CSV fetch
and the outer join are never reached. -/
theorem weather_station_mapping_attribute_error
    (db_path sql_query weather_csv_path weather_mapping_csv : String)
    (fetch : String → List (String × List Cell))
    (mergeOuter : List (String × List Cell) → List (String × List Cell) →
      List (String × List Cell))
    (df : List (String × List Cell)) :
    weather_station_mapping
        (fieldProcessorAttributes db_path sql_query weather_csv_path weather_mapping_csv)
        fetch mergeOuter df =
      .error "AttributeError: FieldDataProcessor object has no attribute weather_map_data" := by
  rfl

end FarmPipeline
